import Mathlib

set_option maxHeartbeats 1000000
set_option maxRecDepth 100000

/-!
Verification development for the `queimadas_monitor` repository
(INPE wildfire-detection ingestion and risk-classification pipeline).

The definitions below are a shallow embedding of the Python sources:

* `config.py`                         — numeric threshold and biome configuration
* `risk_assessment/assessor.py`       — biome lookup and per-record criticality
* `data_collection/collector.py`      — daily / 10-minute CSV fetchers
* `app.py`                            — range aggregation and 10-minute combination

Machine floats are modelled as exact rationals (the comparisons in the source
involve only decimal literals such as 75.0 and 37.5, which are exact in binary
floating point, so `ℚ` is faithful for every comparison the claims mention).
External library calls (shapely point-in-polygon, pandas CSV parsing, the HTTP
client) are modelled as abstract parameters: a polygon is its name together
with a boolean membership test, a fetched HTTP response is a value of
`FetchResponse`, and the local file system is an explicit map from paths to
byte lists.
-/

/-! ## config.py -/

/-- `config.RISK_FRP_THRESHOLD = 75.0` (MW). -/
def RISK_FRP_THRESHOLD : ℚ := 75

/-- `config.SENSITIVE_BIOMES = ["Amazônia", "Mata Atlântica", "Cerrado", "Pantanal"]`. -/
def SENSITIVE_BIOMES : List String := ["Amazônia", "Mata Atlântica", "Cerrado", "Pantanal"]

/-- `config.RAW_DATA_DIR = "output_data/raw/"`. -/
def RAW_DATA_DIR : String := "output_data/raw/"

/-! ## Reasons produced by `assess_foco_criticidade`

The source builds Python format strings.  Each constructor below stands for
one of the exact string templates of `assessor.py`; the payload is the data
interpolated into the template, so two reasons are equal exactly when the
rendered strings are equal:

* `bioGeo b`   — `f"Bioma determinado por geolocalização: {b}"`        (line 112)
* `frpHigh v`  — `f"FRP elevado ({v:.2f} MW >= {RISK_FRP_THRESHOLD} MW)"` (line 119)
* `bioSens b`  — `f"Bioma sensível ({b})"`                              (line 131)
* `generic`    — `"Critério de risco atingido (detalhe não especificado)"` (line 149)
* `nenhum`     — `"Nenhum critério de risco específico atingido"`       (line 151)

The source's duplicate-avoidance test on line 130 is a substring check of the
`bioGeo` rendering against the reasons recorded so far; at that point the list
can only contain `bioGeo`/`frpHigh` renderings (in which the `bioGeo` template
occurs as a substring exactly when the rendered strings coincide), so the check
is membership of `bioGeo b` in the list, which is how it is embedded below. -/
inductive Reason where
  | bioGeo (b : String)
  | frpHigh (v : ℚ)
  | bioSens (b : String)
  | generic
  | nenhum
deriving DecidableEq, Repr

/-! ## Python cell values

A pandas cell as the assessor sees it.  `na` is `None`/`NaN` (everything for
which `pd.notna` is false); `num q` a numeric value; `str s p` a string value
together with the result of Python's `float(s)` (`p = none` when `float`
raises `ValueError`); `strList rs` a list-of-strings cell (only produced by
the enrichment itself, for the `razoes_criticidade` column). -/
inductive PyV where
  | na
  | num (q : ℚ)
  | str (s : String) (parse : Option ℚ)
  | strList (rs : List Reason)
deriving DecidableEq, Repr

/-- Python truthiness of a cell value (`if determined_biome:`).
`bool(float('nan'))` is `True` in Python; the `na` case is unreachable in the
assessor because every use is guarded by a `pd.notna` test or a lookup that
returns a string or `None`. -/
def pyTruthy : PyV → Bool
  | PyV.na => true
  | PyV.num q => q != 0
  | PyV.str s _ => s != ""
  | PyV.strList rs => !rs.isEmpty

/-- `float(v)` on a cell value: identity on numbers, the recorded parse result
on strings (`none` = `ValueError`, swallowed by the source's `except`). -/
def pyFloat : PyV → Option ℚ
  | PyV.num q => some q
  | PyV.str _ p => p
  | _ => none

/-- The string content of a cell, used for Python `in` tests against a list of
strings: a non-string value is never equal to any string in the list. -/
def biomeStr : PyV → Option String
  | PyV.str s _ => some s
  | _ => none

/-! ## Biome index (`assessor.py` lines 21-86)

`BIOMES_GDF` is a GeoDataFrame of rows, each carrying the biome name
(`nom_bioma` column) and a shapely geometry.  A geometry is embedded as its
membership test `contains lon lat` (shapely `Point(lon, lat).within(geom)`);
the index is the list of rows in load order.  The failed-load state
(`BIOMES_GDF` empty) is the empty list. -/
structure BiomePolygon where
  name : String
  contains : ℚ → ℚ → Bool

/-- `get_biome_from_lat_lon(lat, lon)` (`assessor.py` lines 67-86).
Returns `none` when the index is empty, when either coordinate is `NaN`/null,
or when the point is in no polygon; otherwise the name of the first polygon in
load order containing `Point(lon, lat)`.  A non-numeric coordinate makes the
`Point` constructor raise; the `except` on line 84 turns that into `None`. -/
def get_biome_from_lat_lon (gdf : List BiomePolygon) (lat lon : PyV) : Option String :=
  if gdf.isEmpty then none
  else if lat = PyV.na ∨ lon = PyV.na then none
  else
    match lat, lon with
    | PyV.num la, PyV.num lo => (gdf.find? fun p => p.contains lo la).map BiomePolygon.name
    | _, _ => none

/-! ## One detection record (`foco`)

A row of the DataFrame as `assess_foco_criticidade` probes it: for each of the
four fields the source tests both `'field' in foco` (outer `Option`: `none` =
column absent) and `pd.notna(foco['field'])` (the cell is `PyV.na` when null). -/
structure Foco where
  frp : Option PyV := none
  lat : Option PyV := none
  lon : Option PyV := none
  bioma : Option PyV := none

/-- `'bioma' in foco and pd.notna(foco['bioma'])` — the explicit biome value
when present and non-null (`assessor.py` line 107). -/
def biomaExplicit (foco : Foco) : Option PyV :=
  match foco.bioma with
  | some v => if v = PyV.na then none else some v
  | none => none

/-- `'lat' in foco and 'lon' in foco and pd.notna(foco['lat']) and
pd.notna(foco['lon'])` — both coordinates, when present and non-null
(`assessor.py` line 109). -/
def coordsPresent (foco : Foco) : Option (PyV × PyV) :=
  match foco.lat, foco.lon with
  | some la, some lo => if la = PyV.na ∨ lo = PyV.na then none else some (la, lo)
  | _, _ => none

/-- `assessor.py` lines 105-112: the determined biome of a record together
with the geolocation reason recorded while determining it.  The explicit
`bioma` field wins when present and non-null; otherwise the index is consulted
on the coordinates, and a `bioGeo` reason is recorded when the lookup result
is truthy (a non-empty string). -/
def determine_biome (gdf : List BiomePolygon) (foco : Foco) : Option PyV × List Reason :=
  match biomaExplicit foco with
  | some v => (some v, [])
  | none =>
    match coordsPresent foco with
    | some (la, lo) =>
      match get_biome_from_lat_lon gdf la lo with
      | some s => if s ≠ "" then (some (PyV.str s none), [Reason.bioGeo s]) else (some (PyV.str s none), [])
      | none => (none, [])
    | none => (none, [])

/-- `'frp' in foco and pd.notna(foco['frp'])` followed by `float(foco['frp'])`
(`assessor.py` lines 115-117): the parsed FRP value, `none` when the field is
absent, null, or fails to parse (`ValueError` is swallowed). -/
def frp_parsed (foco : Foco) : Option ℚ :=
  match foco.frp with
  | some v => if v = PyV.na then none else pyFloat v
  | none => none

/-- Critério 1 (`assessor.py` lines 114-124), the tier floor contributed by
FRP: `max(0, 2)` when `frp >= RISK_FRP_THRESHOLD`, `max(0, 1)` when
`frp >= RISK_FRP_THRESHOLD / 2`, otherwise the initial 0. -/
def frp_nivel (foco : Foco) : Nat :=
  match frp_parsed foco with
  | some q =>
    if RISK_FRP_THRESHOLD ≤ q then 2
    else if RISK_FRP_THRESHOLD / 2 ≤ q then 1
    else 0
  | none => 0

/-- Critério 1, the reason contributed by FRP: only the `frp >= threshold`
branch records one (the `>= threshold/2` branch deliberately does not). -/
def frp_razoes (foco : Foco) : List Reason :=
  match frp_parsed foco with
  | some q => if RISK_FRP_THRESHOLD ≤ q then [Reason.frpHigh q] else []
  | none => []

/-- `assess_foco_criticidade` before the label mapping and the fallback
reasons (`assessor.py` lines 103-136): the numeric tier
(`nivel_criticidade_num`) and the reasons recorded by Critério 1 and
Critério 2. -/
def assess_core (gdf : List BiomePolygon) (foco : Foco) : Nat × List Reason :=
  let det := determine_biome gdf foco
  let nivel1 := frp_nivel foco
  let razoes1 := det.2 ++ frp_razoes foco
  match det.1 with
  | some v =>
    if pyTruthy v then
      match biomeStr v with
      | some b =>
        if b ∈ SENSITIVE_BIOMES then
          let razoes2 := if Reason.bioGeo b ∈ razoes1 then razoes1 else razoes1 ++ [Reason.bioSens b]
          if 2 ≤ nivel1 ∧ (b = "Amazônia" ∨ b = "Pantanal") then (max nivel1 3, razoes2)
          else (max nivel1 1, razoes2)
        else (nivel1, razoes1)
      | none => (nivel1, razoes1)
    else (nivel1, razoes1)
  | none => (nivel1, razoes1)

/-- `assess_foco_criticidade(foco)` (`assessor.py` lines 89-153): the
criticality label and the list of reasons, including the label mapping
(lines 139-146) and the fallback reasons (lines 148-151). -/
def assess_foco_criticidade (gdf : List BiomePolygon) (foco : Foco) : String × List Reason :=
  let core := assess_core gdf foco
  let nivel := core.1
  let razoes := core.2
  let label :=
    if nivel = 3 then "Crítico"
    else if nivel = 2 then "Alto"
    else if nivel = 1 then "Médio"
    else "Baixo"
  let razoesF :=
    if razoes = [] ∧ 0 < nivel then razoes ++ [Reason.generic]
    else if razoes = [] ∧ nivel = 0 then razoes ++ [Reason.nenhum]
    else razoes
  (label, razoesF)

/-! ## Lemmas about the assessor -/

theorem frp_nivel_le_two (foco : Foco) : frp_nivel foco ≤ 2 := by
  unfold frp_nivel
  split
  · split_ifs <;> omega
  · omega

theorem frp_nivel_eq_two_iff (foco : Foco) :
    frp_nivel foco = 2 ↔ ∃ q, frp_parsed foco = some q ∧ RISK_FRP_THRESHOLD ≤ q := by
  cases h : frp_parsed foco with
  | none => simp [frp_nivel, h]
  | some q =>
    simp only [frp_nivel, h]
    split_ifs with h1 h2 <;> simp_all

theorem frp_razoes_of_nivel_two (foco : Foco) (h : frp_nivel foco = 2) :
    ∃ q, frp_parsed foco = some q ∧ RISK_FRP_THRESHOLD ≤ q ∧
      frp_razoes foco = [Reason.frpHigh q] := by
  rcases (frp_nivel_eq_two_iff foco).mp h with ⟨q, hq, hle⟩
  refine ⟨q, hq, hle, ?_⟩
  simp only [frp_razoes, hq]
  rw [if_pos hle]

theorem determine_biome_none_razoes (gdf : List BiomePolygon) (foco : Foco) :
    (determine_biome gdf foco).1 = none → (determine_biome gdf foco).2 = [] := by
  simp only [determine_biome]
  split
  · simp
  · split
    · split
      · split <;> simp
      · simp
    · simp

/-- The reasons of `assess_core` extend the biome-determination and FRP reasons
(Critério 2 only ever appends). -/
theorem assess_core_razoes_extends (gdf : List BiomePolygon) (foco : Foco) :
    ∃ l, (assess_core gdf foco).2 = ((determine_biome gdf foco).2 ++ frp_razoes foco) ++ l := by
  simp only [assess_core]
  split
  · split
    · split
      · split
        · split <;> split
          · exact ⟨[], by simp⟩
          · exact ⟨[Reason.bioSens _], rfl⟩
          · exact ⟨[], by simp⟩
          · exact ⟨[Reason.bioSens _], rfl⟩
        · exact ⟨[], by simp⟩
      · exact ⟨[], by simp⟩
    · exact ⟨[], by simp⟩
  · exact ⟨[], by simp⟩

theorem pyTruthy_of_biomeStr (v : PyV) (s : String) (h : biomeStr v = some s) :
    pyTruthy v = (s != "") := by
  cases v with
  | na => simp [biomeStr] at h
  | num q => simp [biomeStr] at h
  | str s' p => simp [biomeStr] at h; subst h; rfl
  | strList rs => simp [biomeStr] at h

theorem sensitive_ne_empty (s : String) (h : s ∈ SENSITIVE_BIOMES) : s ≠ "" := by
  simp only [SENSITIVE_BIOMES, List.mem_cons, List.not_mem_nil, or_false] at h
  rcases h with h|h|h|h <;> subst h <;> decide

theorem amz_pan_sensitive (s : String) (h : s = "Amazônia" ∨ s = "Pantanal") :
    s ∈ SENSITIVE_BIOMES := by
  rcases h with h|h <;> subst h <;> decide

/-- Characterisation of `nivel_criticidade_num = 3`: the Critical tier is
reached exactly when FRP drove the floor to 2 (High) and the determined biome
is one of the two highest-sensitivity biomes. -/
theorem assess_core_fst_eq_three_iff (gdf : List BiomePolygon) (foco : Foco) :
    (assess_core gdf foco).1 = 3 ↔
      (frp_nivel foco = 2 ∧ ∃ v s, (determine_biome gdf foco).1 = some v ∧
        biomeStr v = some s ∧ (s = "Amazônia" ∨ s = "Pantanal")) := by
  have hle := frp_nivel_le_two foco
  simp only [assess_core]
  split
  next v heq =>
    split
    next htr =>
      split
      next s heqs =>
        split
        next hsens =>
          split
          next hcond =>
            obtain ⟨hn2, hb⟩ := hcond
            constructor
            · intro _
              exact ⟨by omega, v, s, heq, heqs, hb⟩
            · intro _
              have h3 : max (frp_nivel foco) 3 = 3 := by
                rw [Nat.max_eq_right]; omega
              exact h3
          next hcond =>
            constructor
            · intro h3
              have hmax : max (frp_nivel foco) 1 ≤ 2 := max_le hle (by omega)
              omega
            · rintro ⟨hn, v', s', heq', heqs', hb'⟩
              rw [heq] at heq'
              injection heq' with hv
              subst hv
              rw [heqs] at heqs'
              injection heqs' with hs
              subst hs
              exact absurd ⟨by omega, hb'⟩ hcond
        next hsens =>
          constructor
          · intro h3; omega
          · rintro ⟨hn, v', s', heq', heqs', hb'⟩
            rw [heq] at heq'
            injection heq' with hv
            subst hv
            rw [heqs] at heqs'
            injection heqs' with hs
            subst hs
            exact absurd (amz_pan_sensitive s hb') hsens
      next heqs =>
        constructor
        · intro h3; omega
        · rintro ⟨hn, v', s', heq', heqs', hb'⟩
          rw [heq] at heq'
          injection heq' with hv
          subst hv
          rw [heqs] at heqs'
          exact Option.noConfusion heqs'
    next htr =>
      constructor
      · intro h3; omega
      · rintro ⟨hn, v', s', heq', heqs', hb'⟩
        rw [heq] at heq'
        injection heq' with hv
        subst hv
        have := pyTruthy_of_biomeStr v s' heqs'
        have hne : s' ≠ "" := sensitive_ne_empty s' (amz_pan_sensitive s' hb')
        rw [this] at htr
        simp [hne] at htr
  next heq =>
    constructor
    · intro h3; omega
    · rintro ⟨hn, v', s', heq', heqs', hb'⟩
      rw [heq] at heq'
      exact Option.noConfusion heq'

/-- When a sensitive biome was determined, the reasons of `assess_core` mention
it: either the geolocation reason was already there, or the `Bioma sensível`
reason is appended (`assessor.py` lines 127-131). -/
theorem assess_core_sensitive_razoes (gdf : List BiomePolygon) (foco : Foco) (v : PyV) (s : String)
    (hdb : (determine_biome gdf foco).1 = some v) (hs : biomeStr v = some s)
    (hsens : s ∈ SENSITIVE_BIOMES) :
    Reason.bioGeo s ∈ (assess_core gdf foco).2 ∨ Reason.bioSens s ∈ (assess_core gdf foco).2 := by
  have htr : pyTruthy v = true := by
    rw [pyTruthy_of_biomeStr v s hs]
    simp [sensitive_ne_empty s hsens]
  simp only [assess_core, hdb, htr, hs, if_pos hsens, if_true]
  split
  · split
    next hmem => exact Or.inl hmem
    next hmem => exact Or.inr (List.mem_append_right _ (List.mem_singleton.mpr rfl))
  · split
    next hmem => exact Or.inl hmem
    next hmem => exact Or.inr (List.mem_append_right _ (List.mem_singleton.mpr rfl))

/-- Membership in the pre-fallback reasons is preserved by the final fallback
step of `assess_foco_criticidade` (it only ever appends). -/
theorem mem_assess_razoes_of_mem_core (gdf : List BiomePolygon) (foco : Foco) (r : Reason)
    (h : r ∈ (assess_core gdf foco).2) :
    r ∈ (assess_foco_criticidade gdf foco).2 := by
  simp only [assess_foco_criticidade]
  split_ifs <;> first
    | exact List.mem_append_left _ h
    | exact h

theorem assess_label_critico_iff (gdf : List BiomePolygon) (foco : Foco) :
    (assess_foco_criticidade gdf foco).1 = "Crítico" ↔ (assess_core gdf foco).1 = 3 := by
  simp only [assess_foco_criticidade]
  split_ifs with h1 h2 h3 <;> simp_all

theorem assess_core_fst_le_three (gdf : List BiomePolygon) (foco : Foco) :
    (assess_core gdf foco).1 ≤ 3 := by
  have hle := frp_nivel_le_two foco
  simp only [assess_core]
  split
  · split
    · split
      · split
        · split <;> dsimp only <;> omega
        · dsimp only; omega
      · dsimp only; omega
    · dsimp only; omega
  · dsimp only; omega

theorem assess_label_baixo_iff (gdf : List BiomePolygon) (foco : Foco) :
    (assess_foco_criticidade gdf foco).1 = "Baixo" ↔ (assess_core gdf foco).1 = 0 := by
  have hle3 := assess_core_fst_le_three gdf foco
  simp only [assess_foco_criticidade]
  (split_ifs with h1 h2 h3 <;> simp_all); omega

/-- C1: `assess_foco_criticidade` returns the tier `"Crítico"` exactly when the
record's `frp` field parses to a number `≥ RISK_FRP_THRESHOLD` and the effective
biome (the explicit `bioma` field if present and non-null, otherwise the biome
index lookup on the coordinates) is `"Amazônia"` or `"Pantanal"`; and whenever
the tier is `"Crítico"` the reasons list mentions the FRP value (the
`FRP elevado` reason) and the biome (the geolocation or `Bioma sensível`
reason). -/
theorem assess_critico_iff_frp_and_biome (gdf : List BiomePolygon) (foco : Foco) :
    ((assess_foco_criticidade gdf foco).1 = "Crítico" ↔
      ((∃ q, frp_parsed foco = some q ∧ RISK_FRP_THRESHOLD ≤ q) ∧
        ∃ v s, (determine_biome gdf foco).1 = some v ∧ biomeStr v = some s ∧
          (s = "Amazônia" ∨ s = "Pantanal"))) ∧
    ((assess_foco_criticidade gdf foco).1 = "Crítico" →
      (∃ q, frp_parsed foco = some q ∧ RISK_FRP_THRESHOLD ≤ q ∧
        Reason.frpHigh q ∈ (assess_foco_criticidade gdf foco).2) ∧
      (∃ v s, (determine_biome gdf foco).1 = some v ∧ biomeStr v = some s ∧
        (s = "Amazônia" ∨ s = "Pantanal") ∧
        (Reason.bioGeo s ∈ (assess_foco_criticidade gdf foco).2 ∨
         Reason.bioSens s ∈ (assess_foco_criticidade gdf foco).2))) := by
  constructor
  · rw [assess_label_critico_iff, assess_core_fst_eq_three_iff, frp_nivel_eq_two_iff]
  · intro hc
    have h3 : (assess_core gdf foco).1 = 3 := (assess_label_critico_iff gdf foco).mp hc
    obtain ⟨hn2, v, s, hdb, hs, hb⟩ := (assess_core_fst_eq_three_iff gdf foco).mp h3
    constructor
    · obtain ⟨q, hq, hle, hraz⟩ := frp_razoes_of_nivel_two foco hn2
      refine ⟨q, hq, hle, ?_⟩
      apply mem_assess_razoes_of_mem_core
      obtain ⟨l, hl⟩ := assess_core_razoes_extends gdf foco
      rw [hl, hraz]
      simp
    · refine ⟨v, s, hdb, hs, hb, ?_⟩
      rcases assess_core_sensitive_razoes gdf foco v s hdb hs (amz_pan_sensitive s hb) with h | h
      · exact Or.inl (mem_assess_razoes_of_mem_core gdf foco _ h)
      · exact Or.inr (mem_assess_razoes_of_mem_core gdf foco _ h)

/-- A one-polygon index resolving every point to `"Amazônia"` (witness fixture). -/
def gdfAmz : List BiomePolygon := [⟨"Amazônia", fun _ _ => true⟩]

/-- Spec Scenario A record: `{frp: 80, lat: -3.0, lon: -60.0, biome: null}`
(witness fixture). -/
def focoA : Foco :=
  { frp := some (PyV.num 80), lat := some (PyV.num (-3)), lon := some (PyV.num (-60)) }

/-- Witness for C1 at spec Scenario A: the tier is `"Crítico"` and the reasons
mention the FRP value and the biome. -/
theorem assess_critico_iff_frp_and_biome_witness :
    (assess_foco_criticidade gdfAmz focoA).1 = "Crítico" ∧
    (∃ q, frp_parsed focoA = some q ∧ RISK_FRP_THRESHOLD ≤ q ∧
      Reason.frpHigh q ∈ (assess_foco_criticidade gdfAmz focoA).2) ∧
    (∃ v s, (determine_biome gdfAmz focoA).1 = some v ∧ biomeStr v = some s ∧
      (s = "Amazônia" ∨ s = "Pantanal") ∧
      (Reason.bioGeo s ∈ (assess_foco_criticidade gdfAmz focoA).2 ∨
       Reason.bioSens s ∈ (assess_foco_criticidade gdfAmz focoA).2)) := by
  have hc : (assess_foco_criticidade gdfAmz focoA).1 = "Crítico" := by decide
  have h2 := (assess_critico_iff_frp_and_biome gdfAmz focoA).2 hc
  exact ⟨hc, h2.1, h2.2⟩

/-- C2: for every input record, the reasons list returned by
`assess_foco_criticidade` has length at least 1; and when no specific reason
was recorded by the criteria, the returned list is exactly the
no-criterion-met reason if the tier is `"Baixo"` and the generic placeholder
reason otherwise. -/
theorem assess_razoes_nonempty (gdf : List BiomePolygon) (foco : Foco) :
    1 ≤ (assess_foco_criticidade gdf foco).2.length ∧
      ((assess_core gdf foco).2 = [] →
        (assess_foco_criticidade gdf foco).2 =
          [if (assess_foco_criticidade gdf foco).1 = "Baixo" then Reason.nenhum
           else Reason.generic]) := by
  have hb := assess_label_baixo_iff gdf foco
  constructor
  · simp only [assess_foco_criticidade]
    split_ifs with h1 h2
    · simp
    · simp
    · rcases h : (assess_core gdf foco).2 with _ | ⟨r, l⟩
      · rcases Nat.lt_or_ge (assess_core gdf foco).1 1 with hn | hn
        · exact absurd ⟨h, by omega⟩ h2
        · exact absurd ⟨h, by omega⟩ h1
      · simp [h]
  · intro h0
    rcases Nat.eq_zero_or_pos (assess_core gdf foco).1 with hn | hn
    · have hlb : (assess_foco_criticidade gdf foco).1 = "Baixo" := hb.mpr hn
      rw [if_pos hlb]
      simp only [assess_foco_criticidade]
      rw [if_neg (by rw [h0]; simp; omega), if_pos ⟨h0, hn⟩, h0]
      rfl
    · have hlb : ¬ (assess_foco_criticidade gdf foco).1 = "Baixo" := fun hc => by
        rw [hb] at hc; omega
      rw [if_neg hlb]
      simp only [assess_foco_criticidade]
      rw [if_pos ⟨h0, hn⟩, h0]
      rfl

/-- Witness for C2 at spec Scenario B (the all-null record, where the tier is
`"Baixo"`) and at the FRP-Medium record of the spec's §9 asymmetry note
(`frp = 40`, where no specific reason was recorded but the tier is above
`"Baixo"`). -/
theorem assess_razoes_nonempty_witness :
    (1 ≤ (assess_foco_criticidade [] {}).2.length ∧
      (assess_foco_criticidade [] {}).2 =
        [if (assess_foco_criticidade [] {}).1 = "Baixo" then Reason.nenhum
         else Reason.generic]) := by
  have h := assess_razoes_nonempty [] {}
  exact ⟨h.1, h.2 (by decide)⟩

/-- C5: when the `bioma` field is present and non-null, the result of
`assess_foco_criticidade` is independent of the biome index (the geolocation
lookup is never consulted): any two index states, including the empty one,
yield identical biome determination and identical output. -/
theorem assess_explicit_biome_independent (gdf1 gdf2 : List BiomePolygon) (foco : Foco)
    (v : PyV) (h1 : foco.bioma = some v) (h2 : v ≠ PyV.na) :
    determine_biome gdf1 foco = determine_biome gdf2 foco ∧
      assess_foco_criticidade gdf1 foco = assess_foco_criticidade gdf2 foco := by
  have hb : biomaExplicit foco = some v := by
    simp only [biomaExplicit, h1, if_neg h2]
  have hd : ∀ g, determine_biome g foco = (some v, []) := fun g => by
    simp only [determine_biome, hb]
  refine ⟨by rw [hd, hd], ?_⟩
  simp only [assess_foco_criticidade, assess_core, hd]

/-- Witness for C5: a record with explicit biome `"Cerrado"` classified against
the one-polygon `"Amazônia"` index and against the empty index. -/
theorem assess_explicit_biome_independent_witness :
    determine_biome gdfAmz { bioma := some (PyV.str "Cerrado" none) } =
      determine_biome [] { bioma := some (PyV.str "Cerrado" none) } ∧
    assess_foco_criticidade gdfAmz { bioma := some (PyV.str "Cerrado" none) } =
      assess_foco_criticidade [] { bioma := some (PyV.str "Cerrado" none) } :=
  assess_explicit_biome_independent gdfAmz [] { bioma := some (PyV.str "Cerrado" none) }
    (PyV.str "Cerrado" none) rfl (by decide)

/-- C6: when `frp` parses to a value in `[RISK_FRP_THRESHOLD / 2,
RISK_FRP_THRESHOLD)` and no effective biome is determined, the result is the
tier `"Médio"` with exactly one reason, the generic placeholder — the Medium
FRP branch records no FRP-specific reason. -/
theorem assess_medium_frp_generic (gdf : List BiomePolygon) (foco : Foco) (q : ℚ)
    (hq : frp_parsed foco = some q) (h1 : RISK_FRP_THRESHOLD / 2 ≤ q)
    (h2 : q < RISK_FRP_THRESHOLD) (hdb : (determine_biome gdf foco).1 = none) :
    assess_foco_criticidade gdf foco = ("Médio", [Reason.generic]) := by
  have hnb : (determine_biome gdf foco).2 = [] := determine_biome_none_razoes gdf foco hdb
  have hn : frp_nivel foco = 1 := by
    simp only [frp_nivel, hq]
    rw [if_neg (not_le.mpr h2), if_pos h1]
  have hr : frp_razoes foco = [] := by
    simp only [frp_razoes, hq]
    rw [if_neg (not_le.mpr h2)]
  simp only [assess_foco_criticidade, assess_core, hdb, hn, hr, hnb]
  simp

/-- Witness for C6: `frp = 40` against the empty index. -/
theorem assess_medium_frp_generic_witness :
    assess_foco_criticidade [] { frp := some (PyV.num 40) } = ("Médio", [Reason.generic]) :=
  assess_medium_frp_generic [] { frp := some (PyV.num 40) } 40 (by decide)
    (by norm_num [RISK_FRP_THRESHOLD]) (by norm_num [RISK_FRP_THRESHOLD]) (by decide)

/-- C4: `get_biome_from_lat_lon` returns `None` immediately when either
coordinate is null (for any index, so no polygon is tested) and when the index
is empty; when both coordinates are numeric and the index is non-empty it
returns the name of the first polygon in load order containing the point
`(lon, lat)`, and `None` exactly when no polygon contains it. -/
theorem get_biome_spec (gdf : List BiomePolygon) (lat lon : PyV) :
    ((lat = PyV.na ∨ lon = PyV.na) → get_biome_from_lat_lon gdf lat lon = none) ∧
    (gdf = [] → get_biome_from_lat_lon gdf lat lon = none) ∧
    (∀ la lo, lat = PyV.num la → lon = PyV.num lo → gdf ≠ [] →
      (∀ n, get_biome_from_lat_lon gdf lat lon = some n ↔
          ∃ p pre suf, gdf = pre ++ p :: suf ∧ p.contains lo la = true ∧ n = p.name ∧
            ∀ p' ∈ pre, p'.contains lo la = false) ∧
      (get_biome_from_lat_lon gdf lat lon = none ↔ ∀ p ∈ gdf, p.contains lo la = false)) := by
  refine ⟨?_, ?_, ?_⟩
  · intro h
    simp only [get_biome_from_lat_lon]
    split_ifs with he
    · rfl
    · rfl
  · intro h
    subst h
    rfl
  · intro la lo hla hlo hne
    subst hla
    subst hlo
    have hne' : gdf.isEmpty = false := by
      cases gdf
      · exact absurd rfl hne
      · rfl
    have heq : get_biome_from_lat_lon gdf (PyV.num la) (PyV.num lo) =
        (gdf.find? fun p => p.contains lo la).map BiomePolygon.name := by
      simp [get_biome_from_lat_lon, hne']
    constructor
    · intro n
      rw [heq]
      constructor
      · intro h
        rcases Option.map_eq_some'.mp h with ⟨p, hf, hn⟩
        rcases List.find?_eq_some.mp hf with ⟨hp, pre, suf, hsplit, hpre⟩
        refine ⟨p, pre, suf, hsplit, hp, hn.symm, fun p' hp' => ?_⟩
        have := hpre p' hp'
        simpa using this
      · rintro ⟨p, pre, suf, hsplit, hp, hn, hpre⟩
        have hf : gdf.find? (fun p => p.contains lo la) = some p :=
          List.find?_eq_some.mpr ⟨hp, pre, suf, hsplit, fun a ha => by simp [hpre a ha]⟩
        rw [hf, hn]
        rfl
    · rw [heq]
      constructor
      · intro h p hp
        have hf : gdf.find? (fun p => p.contains lo la) = none := by
          cases hf : gdf.find? (fun p => p.contains lo la)
          · rfl
          · rw [hf] at h
            simp at h
        have := List.find?_eq_none.mp hf p hp
        simpa using this
      · intro h
        have hf : gdf.find? (fun p => p.contains lo la) = none :=
          List.find?_eq_none.mpr (fun x hx => by simp [h x hx])
        rw [hf]
        rfl

/-- Witness for C4: a null coordinate, the empty index, and a first-polygon
match, each at concrete inputs. -/
theorem get_biome_spec_witness :
    get_biome_from_lat_lon gdfAmz PyV.na (PyV.num 0) = none ∧
    get_biome_from_lat_lon [] (PyV.num 0) (PyV.num 0) = none ∧
    get_biome_from_lat_lon gdfAmz (PyV.num (-3)) (PyV.num (-60)) = some "Amazônia" := by
  refine ⟨(get_biome_spec gdfAmz PyV.na (PyV.num 0)).1 (Or.inl rfl),
          (get_biome_spec [] (PyV.num 0) (PyV.num 0)).2.1 rfl, ?_⟩
  have h := ((get_biome_spec gdfAmz (PyV.num (-3)) (PyV.num (-60))).2.2 (-3) (-60) rfl rfl
      (by simp [gdfAmz])).1 "Amazônia"
  exact h.mpr ⟨⟨"Amazônia", fun _ _ => true⟩, [], [], rfl, rfl, rfl, by simp⟩

/-! ## data_collection/collector.py

The fetchers are async I/O code.  They are embedded as state transformers over
an explicit file-system map, parameterised by the behaviour of the one HTTP
request they issue.  A `FetchResponse` is everything the `aiohttp` session can
deliver for a URL: an HTTP error status (so that `raise_for_status` raises
before the output file is opened), a connection error or timeout at request
time, or a streamed body — a list of chunks as read by the 8 KB read loop,
together with how the stream ends (`ok` = complete; `transportFail` = the
connection drops or times out mid-stream, after the listed chunks were already
written; `ioFail k` = the local write raises `IOError` after `k` chunks were
written).  In every failure case the `except` handlers return `None`; nothing
deletes or truncates the output file, which the source opened in `'wb'` mode
directly at its final path. -/

/-- A calendar date (`datetime.date`). -/
structure Date where
  year : Nat
  month : Nat
  day : Nat

/-- A `datetime.datetime` as used by the 10-minute fetcher (seconds never
matter to it). -/
structure DateTime10 where
  date : Date
  hour : Nat
  minute : Nat

/-- Zero-padded decimal rendering, as `strftime` produces for `%Y` (width 4)
and `%m`/`%d`/`%H`/`%M` (width 2). -/
def padNum (w n : Nat) : String :=
  let s := toString n
  String.mk (List.replicate (w - s.length) '0') ++ s

/-- `target_date.strftime("%Y%m%d")`. -/
def dateStr (d : Date) : String :=
  padNum 4 d.year ++ padNum 2 d.month ++ padNum 2 d.day

/-- `f"focos_diario_br_{date_str_url}.csv"` (`collector.py` line 48). -/
def daily_file_name (d : Date) : String :=
  "focos_diario_br_" ++ dateStr d ++ ".csv"

/-- `os.path.join(RAW_DATA_DIR, file_name)`; `RAW_DATA_DIR` ends in `/`, so
the join is concatenation (`collector.py` line 52). -/
def daily_local_path (d : Date) : String :=
  RAW_DATA_DIR ++ daily_file_name d

/-- `f"focos_10min_{date_str_url}_{time_str_url}.csv"` (`collector.py`
line 106). -/
def min10_file_name (dt : DateTime10) : String :=
  "focos_10min_" ++ dateStr dt.date ++ "_" ++ padNum 2 dt.hour ++ padNum 2 dt.minute ++ ".csv"

/-- `os.path.join(RAW_DATA_DIR, file_name)` (`collector.py` line 110). -/
def min10_local_path (dt : DateTime10) : String :=
  RAW_DATA_DIR ++ min10_file_name dt

/-- The local file system: a map from paths to file contents (byte lists).
`none` = no file at that path (`os.path.exists` false). -/
def FS : Type := String → Option (List Nat)

/-- How a streamed response body ends. -/
inductive BodyEnd where
  | ok
  | transportFail
  | ioFail (k : Nat)

/-- The behaviour of one HTTP GET, covering every failure mode the source
handles (`collector.py` lines 69-86 and 127-144). -/
inductive FetchResponse where
  | httpError (status : Nat)
  | connError
  | timeout
  | body (chunks : List (List Nat)) (fin : BodyEnd)

/-- Point update of the file system (what `aiofiles.open(path, 'wb')` followed
by the chunk writes leaves at `path`). -/
def fsUpdate (fs : FS) (p : String) (c : List Nat) : FS :=
  fun q => if q = p then some c else fs q

/-- `fetch_daily_fire_csv(target_date, session)` (`collector.py` lines 36-86):
returns the local path on full success, `None` on any handled failure.  The
output file is written in place: a body that fails mid-stream leaves the
chunks already received at the local path. -/
def fetch_daily_fire_csv (d : Date) (resp : FetchResponse) (fs : FS) : Option String × FS :=
  let p := daily_local_path d
  match resp with
  | FetchResponse.httpError _ => (none, fs)
  | FetchResponse.connError => (none, fs)
  | FetchResponse.timeout => (none, fs)
  | FetchResponse.body chunks fin =>
    match fin with
    | BodyEnd.ok => (some p, fsUpdate fs p chunks.flatten)
    | BodyEnd.transportFail => (none, fsUpdate fs p chunks.flatten)
    | BodyEnd.ioFail k => (none, fsUpdate fs p (chunks.take k).flatten)

/-- `fetch_10min_fire_csv(target_datetime, session)` (`collector.py` lines
88-144): identical to the daily fetcher except for the minute-multiple-of-10
guard on lines 99-101, which returns `None` before any request or file-system
access. -/
def fetch_10min_fire_csv (dt : DateTime10) (resp : FetchResponse) (fs : FS) :
    Option String × FS :=
  if dt.minute % 10 ≠ 0 then (none, fs)
  else
    let p := min10_local_path dt
    match resp with
    | FetchResponse.httpError _ => (none, fs)
    | FetchResponse.connError => (none, fs)
    | FetchResponse.timeout => (none, fs)
    | FetchResponse.body chunks fin =>
      match fin with
      | BodyEnd.ok => (some p, fsUpdate fs p chunks.flatten)
      | BodyEnd.transportFail => (none, fsUpdate fs p chunks.flatten)
      | BodyEnd.ioFail k => (none, fsUpdate fs p (chunks.take k).flatten)

theorem fsUpdate_same (fs : FS) (p : String) (c : List Nat) : fsUpdate fs p c p = some c := by
  simp [fsUpdate]

theorem fsUpdate_other (fs : FS) (p q : String) (c : List Nat) (h : q ≠ p) :
    fsUpdate fs p c q = fs q := by
  simp [fsUpdate, h]

/-- Counterexample to C3: a connection drop after one 8 KB chunk was received
leaves a non-empty partial file at the daily local path — the fetcher neither
removes nor truncates it, so the later loader would read it. -/
theorem fetch_partial_write_counterexample :
    (fetch_daily_fire_csv ⟨2024, 1, 1⟩ (FetchResponse.body [[49]] BodyEnd.transportFail)
        (fun _ => none)).1 = none ∧
    ¬ ((fetch_daily_fire_csv ⟨2024, 1, 1⟩ (FetchResponse.body [[49]] BodyEnd.transportFail)
          (fun _ => none)).2 (daily_local_path ⟨2024, 1, 1⟩) = none ∨
       (fetch_daily_fire_csv ⟨2024, 1, 1⟩ (FetchResponse.body [[49]] BodyEnd.transportFail)
          (fun _ => none)).2 (daily_local_path ⟨2024, 1, 1⟩) = some []) := by
  constructor
  · rfl
  · intro h
    have he : (fetch_daily_fire_csv ⟨2024, 1, 1⟩ (FetchResponse.body [[49]] BodyEnd.transportFail)
        (fun _ => none)).2 (daily_local_path ⟨2024, 1, 1⟩) = some [49] := by
      show fsUpdate (fun _ => none) (daily_local_path ⟨2024, 1, 1⟩) [49]
        (daily_local_path ⟨2024, 1, 1⟩) = some [49]
      exact fsUpdate_same _ _ _
    rw [he] at h
    rcases h with h | h <;> simp at h

/-- C3 (amended): a fetch that fails partway through the chunked transfer
(transport drop or I/O error during the write loop) returns `None` but leaves
the partially written content at the local path; only failures before the body
write begins (HTTP error status, connection error, timeout at request time)
leave the file system unchanged.  Both fetchers behave alike. -/
theorem fetch_failure_leaves_partial_file (d : Date) (dt : DateTime10) (fs : FS)
    (chunks : List (List Nat)) (st k : Nat) :
    (fetch_daily_fire_csv d (FetchResponse.body chunks BodyEnd.transportFail) fs).1 = none ∧
    (fetch_daily_fire_csv d (FetchResponse.body chunks BodyEnd.transportFail) fs).2
        (daily_local_path d) = some chunks.flatten ∧
    (fetch_daily_fire_csv d (FetchResponse.body chunks (BodyEnd.ioFail k)) fs).1 = none ∧
    (fetch_daily_fire_csv d (FetchResponse.body chunks (BodyEnd.ioFail k)) fs).2
        (daily_local_path d) = some (chunks.take k).flatten ∧
    fetch_daily_fire_csv d (FetchResponse.httpError st) fs = (none, fs) ∧
    fetch_daily_fire_csv d FetchResponse.connError fs = (none, fs) ∧
    fetch_daily_fire_csv d FetchResponse.timeout fs = (none, fs) ∧
    (dt.minute % 10 = 0 →
      (fetch_10min_fire_csv dt (FetchResponse.body chunks BodyEnd.transportFail) fs).1 = none ∧
      (fetch_10min_fire_csv dt (FetchResponse.body chunks BodyEnd.transportFail) fs).2
        (min10_local_path dt) = some chunks.flatten) := by
  refine ⟨rfl, fsUpdate_same _ _ _, rfl, fsUpdate_same _ _ _, rfl, rfl, rfl, fun h => ?_⟩
  have h10 : ¬ (dt.minute % 10 ≠ 0) := by omega
  simp only [fetch_10min_fire_csv, if_neg h10]
  simp [fsUpdate]

/-- Witness for C3 (amended) at a concrete date, slot, chunk list and empty
file system. -/
theorem fetch_failure_leaves_partial_file_witness :
    (fetch_daily_fire_csv ⟨2024, 1, 2⟩ (FetchResponse.body [[49], [50]] BodyEnd.transportFail)
        (fun _ => none)).1 = none ∧
    (fetch_daily_fire_csv ⟨2024, 1, 2⟩ (FetchResponse.body [[49], [50]] BodyEnd.transportFail)
        (fun _ => none)).2 (daily_local_path ⟨2024, 1, 2⟩) = some [49, 50] ∧
    (fetch_10min_fire_csv ⟨⟨2024, 1, 2⟩, 0, 10⟩
        (FetchResponse.body [[49], [50]] BodyEnd.transportFail) (fun _ => none)).2
        (min10_local_path ⟨⟨2024, 1, 2⟩, 0, 10⟩) = some [49, 50] := by
  have h := fetch_failure_leaves_partial_file ⟨2024, 1, 2⟩ ⟨⟨2024, 1, 2⟩, 0, 10⟩
    (fun _ => none) [[49], [50]] 500 1
  exact ⟨h.1, h.2.1, (h.2.2.2.2.2.2.2 (by decide)).2⟩

/-- C9: for a target datetime whose minute is not a multiple of 10,
`fetch_10min_fire_csv` returns `None` with the file system untouched, whatever
the network would have answered (no request is issued, no file written). -/
theorem fetch10_invalid_minute (dt : DateTime10) (resp : FetchResponse) (fs : FS)
    (h : dt.minute % 10 ≠ 0) : fetch_10min_fire_csv dt resp fs = (none, fs) := by
  simp only [fetch_10min_fire_csv, if_pos h]

/-- Witness for C9: minute 5 and a would-be successful response. -/
theorem fetch10_invalid_minute_witness :
    fetch_10min_fire_csv ⟨⟨2024, 1, 1⟩, 0, 5⟩ (FetchResponse.body [[49]] BodyEnd.ok)
      (fun _ => none) = (none, fun _ => none) :=
  fetch10_invalid_minute ⟨⟨2024, 1, 1⟩, 0, 5⟩ (FetchResponse.body [[49]] BodyEnd.ok)
    (fun _ => none) (by decide)

/-! ## `fetch_all_10min_slots_for_day` (`collector.py` lines 146-189)

The source creates one `fetch_10min_fire_csv` task per 10-minute slot of the
day, gathers them (`asyncio.gather` preserves task order and isolates
exceptions), then keeps the paths whose file exists, has `st_size > 0`, and
yields a non-empty `pd.read_csv(..., nrows=1)` frame.  The gather is embedded
as the sequential left fold over the slots: in this model each task's return
value does not depend on the file-system state and each task writes only its
own slot path, so every interleaving produces the same results list and the
same per-path final contents.  The per-slot network behaviour is an `oracle`,
and `pd.read_csv(..., nrows=1).empty` is abstracted by a data-row counter
`dataRows` on file contents (a file with `dataRows = 0` also covers the
`EmptyDataError`/parse-failure case, which the `except` on line 179 skips). -/

/-- The 144 slots `(hour, minute)` enumerated by the nested loops on
`collector.py` lines 153-156. -/
def slotsOfDay : List (Nat × Nat) :=
  (List.range 24).flatMap fun h => (List.range 6).map fun i => (h, 10 * i)

/-- What one 10-minute fetch leaves at its slot path (`none` = file untouched:
guard failed or failure before the body write began). -/
def written10 (dt : DateTime10) (resp : FetchResponse) : Option (List Nat) :=
  if dt.minute % 10 ≠ 0 then none
  else
    match resp with
    | FetchResponse.body chunks BodyEnd.ok => some chunks.flatten
    | FetchResponse.body chunks BodyEnd.transportFail => some chunks.flatten
    | FetchResponse.body chunks (BodyEnd.ioFail k) => some (chunks.take k).flatten
    | _ => none

/-- The return value of one 10-minute fetch (independent of the file system). -/
def result10 (dt : DateTime10) (resp : FetchResponse) : Option String :=
  if dt.minute % 10 ≠ 0 then none
  else
    match resp with
    | FetchResponse.body _ BodyEnd.ok => some (min10_local_path dt)
    | _ => none

theorem fetch10_fst_eq (dt : DateTime10) (resp : FetchResponse) (fs : FS) :
    (fetch_10min_fire_csv dt resp fs).1 = result10 dt resp := by
  simp only [fetch_10min_fire_csv, result10]
  split_ifs with h
  · rfl
  · cases resp with
    | httpError st => rfl
    | connError => rfl
    | timeout => rfl
    | body chunks fin => cases fin <;> rfl

theorem fetch10_snd_eq (dt : DateTime10) (resp : FetchResponse) (fs : FS) :
    (fetch_10min_fire_csv dt resp fs).2 =
      match written10 dt resp with
      | some c => fsUpdate fs (min10_local_path dt) c
      | none => fs := by
  simp only [fetch_10min_fire_csv, written10]
  split_ifs with h
  · rfl
  · cases resp with
    | httpError st => rfl
    | connError => rfl
    | timeout => rfl
    | body chunks fin => cases fin <;> rfl

theorem fetch10_fs_frame (dt : DateTime10) (resp : FetchResponse) (fs : FS) (q : String)
    (h : q ≠ min10_local_path dt) : (fetch_10min_fire_csv dt resp fs).2 q = fs q := by
  rw [fetch10_snd_eq]
  cases written10 dt resp with
  | none => rfl
  | some c => exact fsUpdate_other _ _ _ _ h

theorem result10_eq_some (dt : DateTime10) (resp : FetchResponse) (p : String)
    (h : result10 dt resp = some p) : p = min10_local_path dt := by
  simp only [result10] at h
  split_ifs at h
  cases resp with
  | httpError st => exact Option.noConfusion h
  | connError => exact Option.noConfusion h
  | timeout => exact Option.noConfusion h
  | body chunks fin =>
    cases fin with
    | ok => exact (Option.some.injEq _ _).mp h.symm
    | transportFail => exact Option.noConfusion h
    | ioFail k => exact Option.noConfusion h

/-- The `asyncio.gather` fan-out over the slots of a day, threaded over the
file system; `.1` is the results list in task order, `.2` the final file
system. -/
def fetchAll10 (d : Date) (oracle : Nat × Nat → FetchResponse) (fs0 : FS) :
    List (Option String) × FS :=
  slotsOfDay.foldl
    (fun acc hm =>
      (acc.1 ++ [(fetch_10min_fire_csv ⟨d, hm.1, hm.2⟩ (oracle hm) acc.2).1],
        (fetch_10min_fire_csv ⟨d, hm.1, hm.2⟩ (oracle hm) acc.2).2))
    ([], fs0)

/-- The per-path validity check of `collector.py` lines 162-178: the file
exists, is non-empty, and `pd.read_csv(..., nrows=1)` has at least one data
row. -/
def slotFileOk (dataRows : List Nat → Nat) (fs : FS) (p : String) : Bool :=
  match fs p with
  | some c => decide (0 < c.length) && decide (1 ≤ dataRows c)
  | none => false

/-- `fetch_all_10min_slots_for_day(target_date, session)`: the kept paths in
task order, together with the final file system. -/
def fetch_all_10min_slots_for_day (d : Date) (oracle : Nat × Nat → FetchResponse)
    (fs0 : FS) (dataRows : List Nat → Nat) : List String × FS :=
  ((fetchAll10 d oracle fs0).1.filterMap fun r =>
      match r with
      | some p => if slotFileOk dataRows (fetchAll10 d oracle fs0).2 p then some p else none
      | none => none,
    (fetchAll10 d oracle fs0).2)

theorem slotFileOk_true_iff (dataRows : List Nat → Nat) (fs : FS) (p : String) :
    slotFileOk dataRows fs p = true ↔
      ∃ c, fs p = some c ∧ 0 < c.length ∧ 1 ≤ dataRows c := by
  simp only [slotFileOk]
  cases fs p with
  | none => simp
  | some c => simp

theorem slotFileOk_congr (dataRows : List Nat → Nat) (fs fs' : FS) (p : String)
    (h : fs p = fs' p) : slotFileOk dataRows fs p = slotFileOk dataRows fs' p := by
  simp only [slotFileOk, h]

theorem fetchAll10_fold_results (d : Date) (oracle : Nat × Nat → FetchResponse)
    (l : List (Nat × Nat)) (acc : List (Option String)) (fs : FS) :
    (l.foldl
        (fun acc hm =>
          (acc.1 ++ [(fetch_10min_fire_csv ⟨d, hm.1, hm.2⟩ (oracle hm) acc.2).1],
            (fetch_10min_fire_csv ⟨d, hm.1, hm.2⟩ (oracle hm) acc.2).2))
        (acc, fs)).1 =
      acc ++ l.map fun hm => result10 ⟨d, hm.1, hm.2⟩ (oracle hm) := by
  induction l generalizing acc fs with
  | nil => simp
  | cons hm t ih =>
    simp only [List.foldl_cons, List.map_cons]
    rw [ih]
    rw [fetch10_fst_eq]
    simp

/-- The results list of the fan-out: one `result10` per slot, in task order,
independent of the file system. -/
theorem fetchAll10_results (d : Date) (oracle : Nat × Nat → FetchResponse) (fs0 : FS) :
    (fetchAll10 d oracle fs0).1 =
      slotsOfDay.map fun hm => result10 ⟨d, hm.1, hm.2⟩ (oracle hm) := by
  have h := fetchAll10_fold_results d oracle slotsOfDay [] fs0
  simpa [fetchAll10] using h

theorem fetch10_single_fs_agree (d : Date) (hm s0 : Nat × Nat)
    (r r' : FetchResponse) (fs fs' : FS)
    (hagree : ∀ q, q ≠ min10_local_path ⟨d, s0.1, s0.2⟩ → fs q = fs' q)
    (hcase : hm ≠ s0 → r' = r) :
    ∀ q, q ≠ min10_local_path ⟨d, s0.1, s0.2⟩ →
      (fetch_10min_fire_csv ⟨d, hm.1, hm.2⟩ r fs).2 q =
      (fetch_10min_fire_csv ⟨d, hm.1, hm.2⟩ r' fs').2 q := by
  intro q hq
  by_cases hhm : hm = s0
  · subst hhm
    rw [fetch10_fs_frame _ _ _ _ hq, fetch10_fs_frame _ _ _ _ hq]
    exact hagree q hq
  · rw [hcase hhm, fetch10_snd_eq, fetch10_snd_eq]
    rcases hw : written10 ⟨d, hm.1, hm.2⟩ r with _ | c
    · exact hagree q hq
    · show fsUpdate fs (min10_local_path ⟨d, hm.1, hm.2⟩) c q =
        fsUpdate fs' (min10_local_path ⟨d, hm.1, hm.2⟩) c q
      by_cases hqp : q = min10_local_path ⟨d, hm.1, hm.2⟩
      · simp [fsUpdate, hqp]
      · rw [fsUpdate_other _ _ _ _ hqp, fsUpdate_other _ _ _ _ hqp]
        exact hagree q hq

theorem fetchAll10_fold_fs_congr (d : Date) (oracle oracle' : Nat × Nat → FetchResponse)
    (s0 : Nat × Nat) (ha : ∀ hm, hm ≠ s0 → oracle' hm = oracle hm)
    (l : List (Nat × Nat)) :
    ∀ (acc acc' : List (Option String)) (fs fs' : FS),
      (∀ q, q ≠ min10_local_path ⟨d, s0.1, s0.2⟩ → fs q = fs' q) →
      ∀ q, q ≠ min10_local_path ⟨d, s0.1, s0.2⟩ →
        (l.foldl
            (fun acc hm =>
              (acc.1 ++ [(fetch_10min_fire_csv ⟨d, hm.1, hm.2⟩ (oracle hm) acc.2).1],
                (fetch_10min_fire_csv ⟨d, hm.1, hm.2⟩ (oracle hm) acc.2).2))
            (acc, fs)).2 q =
        (l.foldl
            (fun acc hm =>
              (acc.1 ++ [(fetch_10min_fire_csv ⟨d, hm.1, hm.2⟩ (oracle' hm) acc.2).1],
                (fetch_10min_fire_csv ⟨d, hm.1, hm.2⟩ (oracle' hm) acc.2).2))
            (acc', fs')).2 q := by
  induction l with
  | nil => intro acc acc' fs fs' hagree q hq; exact hagree q hq
  | cons hm t ih =>
    intro acc acc' fs fs' hagree q hq
    simp only [List.foldl_cons]
    exact ih _ _ _ _
      (fetch10_single_fs_agree d hm s0 (oracle hm) (oracle' hm) fs fs' hagree (ha hm)) q hq

/-- Replacing one slot's network behaviour does not change the final file
system at any other path. -/
theorem fetchAll10_fs_congr (d : Date) (oracle oracle' : Nat × Nat → FetchResponse)
    (fs0 : FS) (s0 : Nat × Nat) (ha : ∀ hm, hm ≠ s0 → oracle' hm = oracle hm)
    (q : String) (hq : q ≠ min10_local_path ⟨d, s0.1, s0.2⟩) :
    (fetchAll10 d oracle fs0).2 q = (fetchAll10 d oracle' fs0).2 q :=
  fetchAll10_fold_fs_congr d oracle oracle' s0 ha slotsOfDay [] [] fs0 fs0
    (fun _ _ => rfl) q hq

/-- C7: every path kept by `fetch_all_10min_slots_for_day` refers to a file
that exists in the final file system, is non-empty, and has at least one data
row; and one slot's failure is isolated — replacing a single slot's network
behaviour never removes any other slot's path from the result. -/
theorem fetch_all_slots_spec (d : Date) (oracle : Nat × Nat → FetchResponse) (fs0 : FS)
    (dataRows : List Nat → Nat) :
    (∀ p ∈ (fetch_all_10min_slots_for_day d oracle fs0 dataRows).1,
      ∃ c, (fetch_all_10min_slots_for_day d oracle fs0 dataRows).2 p = some c ∧
        0 < c.length ∧ 1 ≤ dataRows c) ∧
    (∀ (oracle' : Nat × Nat → FetchResponse) (s0 : Nat × Nat),
      (∀ hm, hm ≠ s0 → oracle' hm = oracle hm) →
      ∀ p ∈ (fetch_all_10min_slots_for_day d oracle fs0 dataRows).1,
        p ≠ min10_local_path ⟨d, s0.1, s0.2⟩ →
        p ∈ (fetch_all_10min_slots_for_day d oracle' fs0 dataRows).1) := by
  constructor
  · intro p hp
    simp only [fetch_all_10min_slots_for_day] at hp ⊢
    rcases List.mem_filterMap.mp hp with ⟨r, _, hf⟩
    cases r with
    | none => exact Option.noConfusion hf
    | some p' =>
      dsimp only at hf
      split_ifs at hf with hok
      · have hpp : p' = p := by
          injection hf
        subst hpp
        exact (slotFileOk_true_iff dataRows (fetchAll10 d oracle fs0).2 p').mp hok
  · intro oracle' s0 ha p hp hne
    simp only [fetch_all_10min_slots_for_day] at hp ⊢
    rcases List.mem_filterMap.mp hp with ⟨r, hr, hf⟩
    cases r with
    | none => exact Option.noConfusion hf
    | some p' =>
      dsimp only at hf
      split_ifs at hf with hok
      · have hpp : p' = p := by
          injection hf
        subst hpp
        rw [fetchAll10_results] at hr
        rcases List.mem_map.mp hr with ⟨hm, hmem, hres⟩
        have hppath : p' = min10_local_path ⟨d, hm.1, hm.2⟩ :=
          result10_eq_some _ _ _ hres
        have hhm : hm ≠ s0 := by
          intro hcon
          rw [hcon] at hppath
          exact hne hppath
        have hres' : result10 ⟨d, hm.1, hm.2⟩ (oracle' hm) = some p' := by
          rw [ha hm hhm]
          exact hres
        apply List.mem_filterMap.mpr
        refine ⟨some p', ?_, ?_⟩
        · rw [fetchAll10_results]
          exact List.mem_map.mpr ⟨hm, hmem, hres'⟩
        · dsimp only
          have hfs : (fetchAll10 d oracle' fs0).2 p' = (fetchAll10 d oracle fs0).2 p' :=
            (fetchAll10_fs_congr d oracle oracle' fs0 s0 ha p' hne).symm
          rw [slotFileOk_congr dataRows _ _ _ hfs, if_pos hok]

/-- Witness for C7: slot `(0, 0)` succeeds with a one-row file, every other
slot is a 404; the kept path is exactly slot `(0, 0)`'s local path, and it
survives replacing slot `(1, 0)`'s behaviour. -/
theorem fetch_all_slots_spec_witness :
    (∃ c, (fetch_all_10min_slots_for_day ⟨2024, 1, 1⟩
        (fun hm => if hm = (0, 0) then FetchResponse.body [[49]] BodyEnd.ok
                   else FetchResponse.httpError 404)
        (fun _ => none) List.length).2 (min10_local_path ⟨⟨2024, 1, 1⟩, 0, 0⟩) = some c ∧
      0 < c.length ∧ 1 ≤ c.length) ∧
    min10_local_path ⟨⟨2024, 1, 1⟩, 0, 0⟩ ∈ (fetch_all_10min_slots_for_day ⟨2024, 1, 1⟩
        (fun hm => if hm = (0, 0) then FetchResponse.body [[49]] BodyEnd.ok
                   else FetchResponse.httpError 404)
        (fun _ => none) List.length).1 := by
  have hp : min10_local_path ⟨⟨2024, 1, 1⟩, 0, 0⟩ ∈ (fetch_all_10min_slots_for_day ⟨2024, 1, 1⟩
      (fun hm => if hm = (0, 0) then FetchResponse.body [[49]] BodyEnd.ok
                 else FetchResponse.httpError 404)
      (fun _ => none) List.length).1 := by decide
  have h := (fetch_all_slots_spec ⟨2024, 1, 1⟩
      (fun hm => if hm = (0, 0) then FetchResponse.body [[49]] BodyEnd.ok
                 else FetchResponse.httpError 404)
      (fun _ => none) List.length).1 _ hp
  exact ⟨h, hp⟩

/-! ## app.py — range aggregation and 10-minute combination

`fetch_data_for_range` (lines 85-128) gathers one daily fetch per day of the
range (in day order, which `asyncio.gather` preserves), loads each fetched
file with `load_data`, appends the non-empty frames in day order, and
concatenates them; it never re-sorts.  `load_and_combine_10min_data_for_days`
(lines 131-171) appends the non-empty per-slot frames in encounter order,
concatenates, and — when the combined frame has an `event_datetime` column —
sorts descending by that column before returning.

A row is embedded as its parsed `event_datetime` key (`none` = NaT) plus an
opaque payload standing for all other fields; a loaded frame as its rows plus
whether it has the `event_datetime` column (after `pd.concat`, the combined
frame has the column iff some concatenated frame has it).  The per-day /
per-slot fetch-and-load outcomes are inputs here: the claim is about the
ordering behaviour of the combination step. -/

/-- One row of a loaded frame: parsed timestamp key plus opaque payload. -/
structure AppRow where
  evt : Option ℚ
  payload : Nat
deriving DecidableEq, Repr

/-- A loaded per-slot frame: rows plus presence of the `event_datetime`
column. -/
structure PDF where
  hasEvt : Bool
  rows : List AppRow
deriving DecidableEq, Repr

/-- The ordering used by `sort_values(by='event_datetime', ascending=False)`:
descending by timestamp, null timestamps last (pandas default
`na_position='last'`). -/
def evtDescLe (a b : AppRow) : Bool :=
  match a.evt, b.evt with
  | none, none => true
  | none, some _ => false
  | some _, none => true
  | some x, some y => decide (y ≤ x)

theorem evtDescLe_total (a b : AppRow) : evtDescLe a b || evtDescLe b a := by
  simp only [evtDescLe]
  rcases a.evt with _ | x <;> rcases b.evt with _ | y <;> simp
  exact le_total y x

theorem evtDescLe_trans (a b c : AppRow) :
    evtDescLe a b → evtDescLe b c → evtDescLe a c := by
  simp only [evtDescLe]
  rcases a.evt with _ | x <;> rcases b.evt with _ | y <;> rcases c.evt with _ | z <;> simp
  exact fun h1 h2 => le_trans h2 h1

/-- `fetch_data_for_range(start_date, end_date)` (`app.py` lines 85-128),
as a function of the per-day fetch-and-load outcomes in day order (`none` =
fetch failed, raised, or `load_data` returned `None`): append the non-empty
per-day frames in day order, return their concatenation, or `None` when
nothing was loaded.  No sort is applied. -/
def fetch_data_for_range (dayResults : List (Option (List AppRow))) : Option (List AppRow) :=
  let all_dfs := dayResults.foldl
    (fun acc r =>
      match r with
      | some rows => if rows.isEmpty then acc else acc ++ [rows]
      | none => acc) []
  if all_dfs.isEmpty then none else some all_dfs.flatten

/-- `load_and_combine_10min_data_for_days(days_list)` (`app.py` lines
131-171), as a function of the loaded per-slot frames in encounter order
(days in order, slots of each day in returned order; failed or empty loads
already dropped to `rows = []` frames are skipped by the `not df_slot.empty`
guard): append the non-empty frames, concatenate, and sort descending by
`event_datetime` when the combined frame has that column. -/
def load_and_combine_10min_data_for_days (slotDfs : List PDF) : Option (List AppRow) :=
  let all_10min_dfs := slotDfs.foldl
    (fun acc d => if d.rows.isEmpty then acc else acc ++ [d]) []
  if all_10min_dfs.isEmpty then none
  else
    let combined := (all_10min_dfs.map PDF.rows).flatten
    if all_10min_dfs.any PDF.hasEvt then some (combined.mergeSort evtDescLe)
    else some combined

theorem range_fold_eq (l : List (Option (List AppRow))) (acc : List (List AppRow)) :
    (l.foldl
      (fun acc r =>
        match r with
        | some rows => if rows.isEmpty then acc else acc ++ [rows]
        | none => acc) acc) =
      acc ++ (l.filterMap id).filter (fun rows => !rows.isEmpty) := by
  induction l generalizing acc with
  | nil => simp
  | cons r t ih =>
    cases r with
    | none =>
      simp only [List.foldl_cons]
      rw [ih]
      simp [List.filterMap_cons]
    | some rows =>
      simp only [List.foldl_cons]
      by_cases he : rows.isEmpty
      · rw [if_pos he, ih]
        simp [List.filterMap_cons, List.filter_cons, he]
      · rw [if_neg he, ih]
        simp [List.filterMap_cons, List.filter_cons, he]

theorem slots_fold_eq (l : List PDF) (acc : List PDF) :
    (l.foldl (fun acc d => if d.rows.isEmpty then acc else acc ++ [d]) acc) =
      acc ++ l.filter (fun d => !d.rows.isEmpty) := by
  induction l generalizing acc with
  | nil => simp
  | cons d t ih =>
    simp only [List.foldl_cons]
    by_cases he : d.rows.isEmpty
    · rw [if_pos he, ih]
      simp [List.filter_cons, he]
    · rw [if_neg he, ih]
      simp [List.filter_cons, he]

/-- C8: the 10-minute aggregation path returns its combined rows sorted
descending by the parsed timestamp (nulls last) — a permutation of the
concatenation, in encounter order, of the non-empty per-slot frames — when
the timestamp column exists, and the unsorted concatenation when it does not;
the daily-range path applies no sort and returns exactly the concatenation of
the successfully loaded non-empty per-day frames in day-iteration order. -/
theorem combine_order_spec (slotDfs : List PDF) (dayResults : List (Option (List AppRow))) :
    (∀ rows, load_and_combine_10min_data_for_days slotDfs = some rows →
      (((slotDfs.filter (fun d => !d.rows.isEmpty)).any PDF.hasEvt = true →
        rows.Pairwise (fun a b => evtDescLe a b = true) ∧
        rows.Perm ((slotDfs.filter (fun d => !d.rows.isEmpty)).map PDF.rows).flatten) ∧
       ((slotDfs.filter (fun d => !d.rows.isEmpty)).any PDF.hasEvt = false →
        rows = ((slotDfs.filter (fun d => !d.rows.isEmpty)).map PDF.rows).flatten))) ∧
    (∀ rows, fetch_data_for_range dayResults = some rows →
      rows = ((dayResults.filterMap id).filter (fun r => !r.isEmpty)).flatten) := by
  constructor
  · intro rows hrows
    simp only [load_and_combine_10min_data_for_days, slots_fold_eq, List.nil_append] at hrows
    split_ifs at hrows with hemp hevt
    · have heq : rows =
          (((slotDfs.filter fun d => !d.rows.isEmpty).map PDF.rows).flatten).mergeSort
            evtDescLe := by
        injection hrows with h
        exact h.symm
      constructor
      · intro _
        subst heq
        exact ⟨List.sorted_mergeSort (fun a b c hab hbc => evtDescLe_trans a b c hab hbc)
          (fun a b => evtDescLe_total a b) _, List.mergeSort_perm _ _⟩
      · intro hfalse
        rw [hevt] at hfalse
        exact Bool.noConfusion hfalse
    · have heq : rows = ((slotDfs.filter fun d => !d.rows.isEmpty).map PDF.rows).flatten := by
        injection hrows with h
        exact h.symm
      constructor
      · intro htrue
        exact absurd htrue hevt
      · intro _
        exact heq
  · intro rows hrows
    simp only [fetch_data_for_range, range_fold_eq, List.nil_append] at hrows
    split_ifs at hrows with hemp
    injection hrows with h
    exact h.symm

/-- Witness fixture: one slot frame with the timestamp column and a single
row. -/
def pdfsW : List PDF := [⟨true, [⟨some 5, 1⟩]⟩]

/-- Witness fixture: day 1 loads one row, day 2 fails, day 3 loads an empty
frame (spec Scenario C shape). -/
def daysW : List (Option (List AppRow)) := [some [⟨none, 7⟩], none, some []]

/-- Witness for C8 at the concrete fixtures: the 10-minute path returns the
sorted singleton, the daily path the day-ordered concatenation. -/
theorem combine_order_spec_witness :
    load_and_combine_10min_data_for_days pdfsW = some [⟨some 5, 1⟩] ∧
    ([⟨some 5, 1⟩] : List AppRow).Pairwise (fun a b => evtDescLe a b = true) ∧
    ([⟨some 5, 1⟩] : List AppRow).Perm
      ((pdfsW.filter (fun d => !d.rows.isEmpty)).map PDF.rows).flatten ∧
    fetch_data_for_range daysW = some [⟨none, 7⟩] ∧
    ([⟨none, 7⟩] : List AppRow) = ((daysW.filterMap id).filter (fun r => !r.isEmpty)).flatten := by
  have h1 : load_and_combine_10min_data_for_days pdfsW = some [⟨some 5, 1⟩] := by
    simp [load_and_combine_10min_data_for_days, pdfsW]
  have h2 : fetch_data_for_range daysW = some [⟨none, 7⟩] := by decide
  have h := combine_order_spec pdfsW daysW
  have ha := (h.1 [⟨some 5, 1⟩] h1).1 (by decide)
  exact ⟨h1, ha.1, ha.2, h2, h.2 [⟨none, 7⟩] h2⟩

/-! ## `aplica_avaliacao_risco_df` (`assessor.py` lines 155-192)

A pandas DataFrame is embedded column-aligned: an ordered list of column
names, and one value list per row, positionally aligned with the columns.
`df[c] = vals` overwrites the column in place when it exists and appends it
otherwise; `df[c] = pd.NA` fills a whole column with nulls. -/

structure DF where
  cols : List String
  rows : List (List PyV)

/-- `row[c]`: the cell of a row under a column name (the default is never
reached on aligned frames). -/
def cellOf (cols : List String) (row : List PyV) (c : String) : PyV :=
  row.getD (cols.indexOf c) PyV.na

/-- Column assignment `df[c] = vals`: replace in place when the column
exists, append otherwise. -/
def setCol (df : DF) (c : String) (vals : List PyV) : DF :=
  if c ∈ df.cols then
    { cols := df.cols,
      rows := df.rows.zipWith (fun r v => r.set (df.cols.indexOf c) v) vals }
  else
    { cols := df.cols ++ [c], rows := df.rows.zipWith (fun r v => r ++ [v]) vals }

/-- `if c not in df.columns: df[c] = pd.NA` (`assessor.py` lines 173-175). -/
def ensureCol (df : DF) (c : String) : DF :=
  if c ∈ df.cols then df else setCol df c (df.rows.map fun _ => PyV.na)

/-- Building the `Foco` view of a row, mirroring the `'field' in foco` and
`foco['field']` accesses of `assess_foco_criticidade`. -/
def focoOfRow (cols : List String) (row : List PyV) : Foco :=
  { frp := if "frp" ∈ cols then some (cellOf cols row "frp") else none,
    lat := if "lat" ∈ cols then some (cellOf cols row "lat") else none,
    lon := if "lon" ∈ cols then some (cellOf cols row "lon") else none,
    bioma := if "bioma" ∈ cols then some (cellOf cols row "bioma") else none }

/-- The `determined_biome_geo` cell of a row (`assessor.py` lines 187-191):
the geolocation lookup when both coordinates are non-null, else `None`. -/
def dbgCell (gdf : List BiomePolygon) (cols : List String) (row : List PyV) : PyV :=
  let la := cellOf cols row "lat"
  let lo := cellOf cols row "lon"
  if la ≠ PyV.na ∧ lo ≠ PyV.na then
    match get_biome_from_lat_lon gdf la lo with
    | some s => PyV.str s none
    | none => PyV.na
  else PyV.na

/-- `aplica_avaliacao_risco_df(df)` (`assessor.py` lines 155-192). -/
def aplica_avaliacao_risco_df (gdf : List BiomePolygon) (df : DF) : DF :=
  if df.rows.isEmpty then
    let d2 := setCol (setCol df "criticidade" []) "razoes_criticidade" []
    if gdf.isEmpty then d2 else setCol d2 "determined_biome_geo" []
  else
    let df3 := ensureCol (ensureCol (ensureCol df "frp") "lat") "lon"
    let avaliacoes := df3.rows.map fun r => assess_foco_criticidade gdf (focoOfRow df3.cols r)
    let df5 := setCol (setCol df3 "criticidade" (avaliacoes.map fun a => PyV.str a.1 none))
      "razoes_criticidade" (avaliacoes.map fun a => PyV.strList a.2)
    if gdf.isEmpty then df5
    else if "lat" ∈ df5.cols ∧ "lon" ∈ df5.cols then
      setCol df5 "determined_biome_geo" (df5.rows.map fun r => dbgCell gdf df5.cols r)
    else df5

theorem setCol_of_not_mem (df : DF) (c : String) (vals : List PyV) (h : c ∉ df.cols) :
    setCol df c vals =
      { cols := df.cols ++ [c], rows := df.rows.zipWith (fun r v => r ++ [v]) vals } := by
  simp only [setCol, if_neg h]

theorem ensureCol_cols (df : DF) (c : String) :
    (ensureCol df c).cols = df.cols ++ (if c ∈ df.cols then [] else [c]) := by
  simp only [ensureCol]
  by_cases h : c ∈ df.cols
  · simp [h]
  · simp [h, setCol_of_not_mem df c _ h]

theorem ensureCol_rows (df : DF) (c : String) :
    (ensureCol df c).rows =
      df.rows.map (fun r => r ++ (if c ∈ df.cols then [] else [PyV.na])) := by
  simp only [ensureCol]
  by_cases h : c ∈ df.cols
  · simp [h]
  · simp only [h, if_neg h, setCol_of_not_mem df c _ h, if_false]
    rw [List.zipWith_map_right, List.zipWith_same]

theorem df3_cols_char (df : DF) :
    (ensureCol (ensureCol (ensureCol df "frp") "lat") "lon").cols =
      ((df.cols ++ (if "frp" ∈ df.cols then [] else ["frp"]))
        ++ (if "lat" ∈ df.cols then [] else ["lat"]))
        ++ (if "lon" ∈ df.cols then [] else ["lon"]) := by
  by_cases h1 : "frp" ∈ df.cols <;> by_cases h2 : "lat" ∈ df.cols <;>
    by_cases h3 : "lon" ∈ df.cols <;>
    simp [ensureCol_cols, h1, h2, h3]

theorem df3_rows_char (df : DF) :
    (ensureCol (ensureCol (ensureCol df "frp") "lat") "lon").rows =
      df.rows.map (fun r =>
        ((r ++ (if "frp" ∈ df.cols then [] else [PyV.na]))
          ++ (if "lat" ∈ df.cols then [] else [PyV.na]))
          ++ (if "lon" ∈ df.cols then [] else [PyV.na])) := by
  by_cases h1 : "frp" ∈ df.cols <;> by_cases h2 : "lat" ∈ df.cols <;>
    by_cases h3 : "lon" ∈ df.cols <;>
    simp [ensureCol_rows, ensureCol_cols, h1, h2, h3, List.map_map, Function.comp]

/-- Statement abbreviation: the column list after the `frp`/`lat`/`lon`
fills. -/
def fillsCols (df : DF) : List String :=
  ((df.cols ++ (if "frp" ∈ df.cols then [] else ["frp"]))
    ++ (if "lat" ∈ df.cols then [] else ["lat"]))
    ++ (if "lon" ∈ df.cols then [] else ["lon"])

/-- Statement abbreviation: one row after the `frp`/`lat`/`lon` fills. -/
def fillsRow (df : DF) (r : List PyV) : List PyV :=
  ((r ++ (if "frp" ∈ df.cols then [] else [PyV.na]))
    ++ (if "lat" ∈ df.cols then [] else [PyV.na]))
    ++ (if "lon" ∈ df.cols then [] else [PyV.na])

/-- Statement abbreviation: one fully enriched row — the filled input row,
the two assessment cells, and, when the biome index is non-empty, the
`determined_biome_geo` cell. -/
def enrichedRow (gdf : List BiomePolygon) (df : DF) (r : List PyV) : List PyV :=
  let r3 := fillsRow df r
  let a := assess_foco_criticidade gdf (focoOfRow (fillsCols df) r3)
  let r5 := (r3 ++ [PyV.str a.1 none]) ++ [PyV.strList a.2]
  if gdf.isEmpty then r5
  else r5 ++ [dbgCell gdf ((fillsCols df ++ ["criticidade"]) ++ ["razoes_criticidade"]) r5]

theorem df3_cols_fills (df : DF) :
    (ensureCol (ensureCol (ensureCol df "frp") "lat") "lon").cols = fillsCols df :=
  df3_cols_char df

theorem df3_rows_fills (df : DF) :
    (ensureCol (ensureCol (ensureCol df "frp") "lat") "lon").rows =
      df.rows.map (fillsRow df) :=
  df3_rows_char df

theorem not_mem_fillsCols (df : DF) (c : String) (hc : c ∉ df.cols)
    (hf : c ≠ "frp") (hl : c ≠ "lat") (ho : c ≠ "lon") : c ∉ fillsCols df := by
  simp only [fillsCols]
  by_cases h1 : "frp" ∈ df.cols <;> by_cases h2 : "lat" ∈ df.cols <;>
    by_cases h3 : "lon" ∈ df.cols <;>
    simp [h1, h2, h3, hc, hf, hl, ho]

theorem lat_mem_fillsCols (df : DF) : "lat" ∈ fillsCols df := by
  simp only [fillsCols]
  by_cases h1 : "frp" ∈ df.cols <;> by_cases h2 : "lat" ∈ df.cols <;>
    by_cases h3 : "lon" ∈ df.cols <;>
    simp [h1, h2, h3]

theorem lon_mem_fillsCols (df : DF) : "lon" ∈ fillsCols df := by
  simp only [fillsCols]
  by_cases h1 : "frp" ∈ df.cols <;> by_cases h2 : "lat" ∈ df.cols <;>
    by_cases h3 : "lon" ∈ df.cols <;>
    simp [h1, h2, h3]

theorem aplica_char (gdf : List BiomePolygon) (df : DF)
    (hne : df.rows.isEmpty = false)
    (hc1 : "criticidade" ∉ df.cols)
    (hc2 : "razoes_criticidade" ∉ df.cols)
    (hc3 : "determined_biome_geo" ∉ df.cols) :
    aplica_avaliacao_risco_df gdf df =
      { cols := ((fillsCols df ++ ["criticidade"]) ++ ["razoes_criticidade"])
          ++ (if gdf.isEmpty then [] else ["determined_biome_geo"]),
        rows := df.rows.map (enrichedRow gdf df) } := by
  have hcf : "criticidade" ∉ fillsCols df :=
    not_mem_fillsCols df _ hc1 (by decide) (by decide) (by decide)
  have hrf : "razoes_criticidade" ∉ fillsCols df :=
    not_mem_fillsCols df _ hc2 (by decide) (by decide) (by decide)
  have hdf : "determined_biome_geo" ∉ fillsCols df :=
    not_mem_fillsCols df _ hc3 (by decide) (by decide) (by decide)
  have hr4 : "razoes_criticidade" ∉ fillsCols df ++ ["criticidade"] := by
    simp [hrf]
  have hd5 : "determined_biome_geo" ∉
      (fillsCols df ++ ["criticidade"]) ++ ["razoes_criticidade"] := by
    simp [hdf]
  have h4 : setCol (ensureCol (ensureCol (ensureCol df "frp") "lat") "lon") "criticidade"
      (((ensureCol (ensureCol (ensureCol df "frp") "lat") "lon").rows.map
          (fun r => assess_foco_criticidade gdf
            (focoOfRow (ensureCol (ensureCol (ensureCol df "frp") "lat") "lon").cols r))).map
        (fun a => PyV.str a.1 none)) =
      { cols := fillsCols df ++ ["criticidade"],
        rows := df.rows.map (fun r =>
          fillsRow df r ++ [PyV.str (assess_foco_criticidade gdf
            (focoOfRow (fillsCols df) (fillsRow df r))).1 none]) } := by
    rw [setCol_of_not_mem _ _ _ (by rw [df3_cols_fills]; exact hcf)]
    rw [df3_cols_fills, df3_rows_fills]
    simp only [List.map_map]
    rw [List.zipWith_map, List.zipWith_same]
    rfl
  simp only [aplica_avaliacao_risco_df, hne, Bool.false_eq_true, if_false]
  rw [h4]
  have h5 : setCol ({ cols := fillsCols df ++ ["criticidade"],
                      rows := df.rows.map (fun r =>
                        fillsRow df r ++ [PyV.str (assess_foco_criticidade gdf
                          (focoOfRow (fillsCols df) (fillsRow df r))).1 none]) } : DF)
      "razoes_criticidade"
      (((ensureCol (ensureCol (ensureCol df "frp") "lat") "lon").rows.map
          (fun r => assess_foco_criticidade gdf
            (focoOfRow (ensureCol (ensureCol (ensureCol df "frp") "lat") "lon").cols r))).map
        (fun a => PyV.strList a.2)) =
      { cols := (fillsCols df ++ ["criticidade"]) ++ ["razoes_criticidade"],
        rows := df.rows.map (fun r =>
          (fillsRow df r ++ [PyV.str (assess_foco_criticidade gdf
            (focoOfRow (fillsCols df) (fillsRow df r))).1 none])
            ++ [PyV.strList (assess_foco_criticidade gdf
              (focoOfRow (fillsCols df) (fillsRow df r))).2]) } := by
    rw [setCol_of_not_mem _ _ _ hr4]
    rw [df3_cols_fills, df3_rows_fills]
    simp only [List.map_map]
    rw [List.zipWith_map, List.zipWith_same]
    rfl
  rw [h5]
  by_cases hemp : gdf.isEmpty
  · rw [if_pos hemp, if_pos hemp]
    congr 1
    · simp
    · apply List.map_congr_left
      intro r _
      simp only [enrichedRow, hemp, if_true]
  · rw [if_neg hemp, if_neg hemp]
    rw [if_pos ⟨by simp [lat_mem_fillsCols df], by simp [lon_mem_fillsCols df]⟩]
    rw [setCol_of_not_mem _ _ _ hd5]
    simp only [List.map_map]
    rw [List.zipWith_map, List.zipWith_same]
    congr 1
    apply List.map_congr_left
    intro r _
    simp [enrichedRow, hemp, Function.comp]

theorem getD_map_of_lt {α β : Type} (f : α → β) (l : List α) (i : Nat) (hi : i < l.length)
    (d : α) (d' : β) : (l.map f).getD i d' = f (l.getD i d) := by
  rw [List.getD_eq_getElem?_getD, List.getD_eq_getElem?_getD, List.getElem?_map,
    List.getElem?_eq_getElem hi]
  simp

theorem getD_append_left_of_lt {α : Type} {l₁ l₂ : List α} {n : Nat} (h : n < l₁.length)
    (d : α) : (l₁ ++ l₂).getD n d = l₁.getD n d := by
  rw [List.getD_eq_getElem?_getD, List.getD_eq_getElem?_getD, List.getElem?_append_left h]

theorem getD_append_right_of_le {α : Type} {l₁ l₂ : List α} {n : Nat} (h : l₁.length ≤ n)
    (d : α) : (l₁ ++ l₂).getD n d = l₂.getD (n - l₁.length) d := by
  rw [List.getD_eq_getElem?_getD, List.getD_eq_getElem?_getD, List.getElem?_append_right h]

theorem enrichedRow_prefix (gdf : List BiomePolygon) (df : DF) (r : List PyV) :
    ∃ t, enrichedRow gdf df r = r ++ t := by
  simp only [enrichedRow, fillsRow]
  by_cases hemp : gdf.isEmpty <;>
    simp only [hemp, if_true, if_false, Bool.false_eq_true, List.append_assoc] <;>
    exact ⟨_, rfl⟩

theorem fillsRow_length (df : DF) (r : List PyV) (h : r.length = df.cols.length) :
    (fillsRow df r).length = (fillsCols df).length := by
  simp only [fillsRow, fillsCols]
  by_cases h1 : "frp" ∈ df.cols <;> by_cases h2 : "lat" ∈ df.cols <;>
    by_cases h3 : "lon" ∈ df.cols <;> simp [h1, h2, h3, h]

theorem cellOf_extend (cols ext : List String) (row tail : List PyV) (c : String)
    (hmem : c ∈ cols) (hlen : row.length = cols.length) :
    cellOf (cols ++ ext) (row ++ tail) c = cellOf cols row c := by
  unfold cellOf
  rw [List.indexOf_append_of_mem hmem]
  have hlt : cols.indexOf c < row.length := by
    rw [hlen]
    exact List.indexOf_lt_length.mpr hmem
  exact getD_append_left_of_lt hlt _

theorem cellOf_skip (colsA colsB : List String) (rowA rowB : List PyV) (c : String)
    (hnc : c ∉ colsA) (hlen : rowA.length = colsA.length) :
    cellOf (colsA ++ colsB) (rowA ++ rowB) c = cellOf colsB rowB c := by
  unfold cellOf
  rw [List.indexOf_append_of_not_mem hnc]
  rw [getD_append_right_of_le (by omega) _]
  congr 1
  omega

theorem cellOf_fills_na (df : DF) (r : List PyV) (hlen : r.length = df.cols.length) :
    ("frp" ∉ df.cols → cellOf (fillsCols df) (fillsRow df r) "frp" = PyV.na) ∧
    ("lat" ∉ df.cols → cellOf (fillsCols df) (fillsRow df r) "lat" = PyV.na) ∧
    ("lon" ∉ df.cols → cellOf (fillsCols df) (fillsRow df r) "lon" = PyV.na) := by
  refine ⟨?_, ?_, ?_⟩
  · intro hnc
    simp only [fillsCols, fillsRow, hnc, if_false, List.append_assoc]
    rw [cellOf_skip df.cols _ r _ _ hnc hlen]
    rw [cellOf_extend ["frp"] _ [PyV.na] _ _ (by decide) (by decide)]
    decide
  · intro hnc
    simp only [fillsCols, fillsRow, hnc, if_false, List.append_assoc]
    rw [cellOf_skip df.cols _ r _ _ (fun h => hnc h) hlen]
    by_cases h1 : "frp" ∈ df.cols
    · simp only [h1, if_true, List.nil_append]
      rw [cellOf_extend ["lat"] _ [PyV.na] _ _ (by decide) (by decide)]
      decide
    · simp only [h1, if_false]
      rw [cellOf_skip ["frp"] _ [PyV.na] _ _ (by decide) (by decide)]
      rw [cellOf_extend ["lat"] _ [PyV.na] _ _ (by decide) (by decide)]
      decide
  · intro hnc
    simp only [fillsCols, fillsRow, hnc, if_false, List.append_assoc]
    rw [cellOf_skip df.cols _ r _ _ (fun h => hnc h) hlen]
    by_cases h1 : "frp" ∈ df.cols <;> by_cases h2 : "lat" ∈ df.cols <;>
      simp only [h1, h2, if_true, if_false, List.nil_append]
    · decide
    · rw [cellOf_skip ["lat"] _ [PyV.na] _ _ (by decide) (by decide)]
      decide
    · rw [cellOf_skip ["frp"] _ [PyV.na] _ _ (by decide) (by decide)]
      decide
    · rw [cellOf_skip ["frp"] _ [PyV.na] _ _ (by decide) (by decide)]
      rw [cellOf_skip ["lat"] _ [PyV.na] _ _ (by decide) (by decide)]
      decide

theorem frp_mem_fillsCols (df : DF) : "frp" ∈ fillsCols df := by
  simp only [fillsCols]
  by_cases h1 : "frp" ∈ df.cols <;> by_cases h2 : "lat" ∈ df.cols <;>
    by_cases h3 : "lon" ∈ df.cols <;>
    simp [h1, h2, h3]

/-- C10: on a non-empty frame not already carrying the enrichment columns,
`aplica_avaliacao_risco_df` keeps every input column with its values
unchanged and the same number of rows; the only columns added are the
`frp`/`lat`/`lon` fills (whose cells are NA when the column was absent),
`criticidade`, `razoes_criticidade`, and — only when the biome index is
non-empty — `determined_biome_geo`. -/
theorem aplica_frame_spec (gdf : List BiomePolygon) (df : DF)
    (hne : df.rows.isEmpty = false)
    (hc1 : "criticidade" ∉ df.cols)
    (hc2 : "razoes_criticidade" ∉ df.cols)
    (hc3 : "determined_biome_geo" ∉ df.cols)
    (halign : ∀ r ∈ df.rows, r.length = df.cols.length) :
    ((aplica_avaliacao_risco_df gdf df).cols =
      ((fillsCols df ++ ["criticidade"]) ++ ["razoes_criticidade"])
        ++ (if gdf.isEmpty then [] else ["determined_biome_geo"])) ∧
    ((aplica_avaliacao_risco_df gdf df).rows.length = df.rows.length) ∧
    (∀ i, i < df.rows.length → ∃ t,
      (aplica_avaliacao_risco_df gdf df).rows.getD i [] = df.rows.getD i [] ++ t) ∧
    (∀ c ∈ df.cols, ∀ i, i < df.rows.length →
      cellOf (aplica_avaliacao_risco_df gdf df).cols
        ((aplica_avaliacao_risco_df gdf df).rows.getD i []) c =
      cellOf df.cols (df.rows.getD i []) c) ∧
    (∀ c ∈ (["frp", "lat", "lon"] : List String), c ∉ df.cols →
      ∀ i, i < df.rows.length →
        cellOf (aplica_avaliacao_risco_df gdf df).cols
          ((aplica_avaliacao_risco_df gdf df).rows.getD i []) c = PyV.na) := by
  have hchar := aplica_char gdf df hne hc1 hc2 hc3
  have hcols : (aplica_avaliacao_risco_df gdf df).cols =
      ((fillsCols df ++ ["criticidade"]) ++ ["razoes_criticidade"])
        ++ (if gdf.isEmpty then [] else ["determined_biome_geo"]) := by rw [hchar]
  have hrows : (aplica_avaliacao_risco_df gdf df).rows =
      df.rows.map (enrichedRow gdf df) := by rw [hchar]
  have hrowmem : ∀ i, i < df.rows.length → df.rows.getD i [] ∈ df.rows := by
    intro i hi
    rw [List.getD_eq_getElem?_getD, List.getElem?_eq_getElem hi]
    exact List.getElem_mem hi
  have hgetrow : ∀ i, i < df.rows.length →
      (aplica_avaliacao_risco_df gdf df).rows.getD i [] =
        enrichedRow gdf df (df.rows.getD i []) := by
    intro i hi
    rw [hrows]
    exact getD_map_of_lt _ _ _ hi [] []
  refine ⟨hcols, ?_, ?_, ?_, ?_⟩
  · rw [hrows]
    simp
  · intro i hi
    rw [hgetrow i hi]
    exact enrichedRow_prefix gdf df _
  · intro c hc i hi
    obtain ⟨ext, hext⟩ : ∃ ext, (aplica_avaliacao_risco_df gdf df).cols = df.cols ++ ext := by
      rw [hcols]
      simp only [fillsCols, List.append_assoc]
      exact ⟨_, rfl⟩
    obtain ⟨t, ht⟩ := enrichedRow_prefix gdf df (df.rows.getD i [])
    rw [hgetrow i hi, ht, hext]
    exact cellOf_extend _ _ _ _ _ hc (halign _ (hrowmem i hi))
  · intro c hc hnc i hi
    obtain ⟨ext, hext⟩ : ∃ ext, (aplica_avaliacao_risco_df gdf df).cols =
        fillsCols df ++ ext := by
      rw [hcols]
      simp only [List.append_assoc]
      exact ⟨_, rfl⟩
    obtain ⟨t, ht⟩ : ∃ t, enrichedRow gdf df (df.rows.getD i []) =
        fillsRow df (df.rows.getD i []) ++ t := by
      by_cases hemp : gdf.isEmpty <;>
        simp only [enrichedRow, hemp, if_true, if_false, Bool.false_eq_true,
          List.append_assoc] <;>
        exact ⟨_, rfl⟩
    have hlen := halign _ (hrowmem i hi)
    have hmemf : c ∈ fillsCols df := by
      simp only [List.mem_cons, List.not_mem_nil, or_false] at hc
      rcases hc with hc | hc | hc <;> subst hc
      · exact frp_mem_fillsCols df
      · exact lat_mem_fillsCols df
      · exact lon_mem_fillsCols df
    rw [hgetrow i hi, ht, hext]
    rw [cellOf_extend _ _ _ _ _ hmemf (fillsRow_length df _ hlen)]
    have hA := cellOf_fills_na df (df.rows.getD i []) hlen
    simp only [List.mem_cons, List.not_mem_nil, or_false] at hc
    rcases hc with hc | hc | hc <;> subst hc
    · exact hA.1 hnc
    · exact hA.2.1 hnc
    · exact hA.2.2 hnc

/-- Witness fixture for C10: a one-row frame with only a `bioma` column. -/
def dfW : DF := { cols := ["bioma"], rows := [[PyV.str "Cerrado" none]] }

/-- Witness for C10 at the one-polygon index and the one-row frame. -/
theorem aplica_frame_spec_witness :
    ((aplica_avaliacao_risco_df gdfAmz dfW).cols =
      ((fillsCols dfW ++ ["criticidade"]) ++ ["razoes_criticidade"])
        ++ (if gdfAmz.isEmpty then [] else ["determined_biome_geo"])) ∧
    ((aplica_avaliacao_risco_df gdfAmz dfW).rows.length = dfW.rows.length) ∧
    (∀ i, i < dfW.rows.length → ∃ t,
      (aplica_avaliacao_risco_df gdfAmz dfW).rows.getD i [] = dfW.rows.getD i [] ++ t) ∧
    (∀ c ∈ dfW.cols, ∀ i, i < dfW.rows.length →
      cellOf (aplica_avaliacao_risco_df gdfAmz dfW).cols
        ((aplica_avaliacao_risco_df gdfAmz dfW).rows.getD i []) c =
      cellOf dfW.cols (dfW.rows.getD i []) c) ∧
    (∀ c ∈ (["frp", "lat", "lon"] : List String), c ∉ dfW.cols →
      ∀ i, i < dfW.rows.length →
        cellOf (aplica_avaliacao_risco_df gdfAmz dfW).cols
          ((aplica_avaliacao_risco_df gdfAmz dfW).rows.getD i []) c = PyV.na) :=
  aplica_frame_spec gdfAmz dfW (by decide) (by decide) (by decide) (by decide)
    (by decide)
